import Mathlib

/-!
Shallow embedding of `src/server.js`, a minimal HTTP relay that forwards chat
messages to an upstream assistants API.

JavaScript runtime values are modelled by the inductive `JsVal` (numbers as
`Int`; the claims never exercise fractional values).  Property access that can
raise a `TypeError` (plain `x.k` on `null`/`undefined`) is modelled by `jsGet`
returning `Except JsError`; optional chaining `x?.k` is the total `JsVal.getOpt`.
Thrown JS errors are the structure `JsError` (an `Error` with the optional
`status` / `data` fields that `openAI` attaches).  The HTTP layer (`fetch`,
JSON parsing, express routing) is external library capability per the spec;
an upstream response enters the model as `HttpResp` = (ok flag, status code,
parsed body).  Each handler returns its HTTP response together with the list
of upstream calls it performed, in order.
-/

set_option autoImplicit false

/-- A JavaScript value (numbers restricted to integers). -/
inductive JsVal where
  | null
  | undefined
  | bool (b : Bool)
  | num (n : Int)
  | str (s : String)
  | arr (elems : List JsVal)
  | obj (fields : List (String × JsVal))

/-- JS truthiness: `null`, `undefined`, `false`, `0` and `""` are falsy. -/
def JsVal.truthy : JsVal → Bool
  | .null => false
  | .undefined => false
  | .bool b => b
  | .num n => n != 0
  | .str s => s != ""
  | .arr _ => true
  | .obj _ => true

/-- `typeof v === "string"`. -/
def JsVal.isString : JsVal → Bool
  | .str _ => true
  | _ => false

/-- Strict equality `v === "s"` against a string literal. -/
def JsVal.isStr : JsVal → String → Bool
  | .str t, s => t == s
  | _, _ => false

/-- `v` is `null` or `undefined` (plain property access on it throws). -/
def JsVal.isNullish : JsVal → Bool
  | .null => true
  | .undefined => true
  | _ => false

/-- Optional chaining `v?.k`: `undefined` on nullish bases and on values
without the property; first matching field of an object otherwise. -/
def JsVal.getOpt : JsVal → String → JsVal
  | .obj fields, k =>
    match fields.lookup k with
    | some v => v
    | none => .undefined
  | _, _ => .undefined

/-- JS string coercion `String(v)`, fuelled so that the recursion through
array elements is structural (on the fuel).  Arrays join their elements with
`","`, rendering nullish elements as `""`; objects render as
`"[object Object]"`.  The fuel only decreases when descending into an array
element, whose `sizeOf` drops by at least two, so fuel `sizeOf v` (as supplied
by `JsVal.jsToString`) never runs out. -/
def JsVal.jsToStringFuel : JsVal → Nat → String
  | .null, _ => "null"
  | .undefined, _ => "undefined"
  | .bool true, _ => "true"
  | .bool false, _ => "false"
  | .num n, _ => toString n
  | .str s, _ => s
  | .obj _, _ => "[object Object]"
  | .arr _, 0 => ""
  | .arr elems, fuel + 1 =>
    String.intercalate "," (elems.map fun y =>
      if y.isNullish then "" else y.jsToStringFuel fuel)

/-- Size of a JS value, used only to provision fuel for `JsVal.jsToString`:
strictly larger than the size of every element of an array. -/
def JsVal.jsSize : JsVal → Nat
  | .arr elems => 1 + (elems.attach.map fun y => y.1.jsSize).sum
  | _ => 1
decreasing_by
  have h := List.sizeOf_lt_of_mem y.2
  simp only [JsVal.arr.sizeOf_spec]
  omega

/-- JS string coercion `String(v)` as used by template literals and by the
`Error` constructor.  Only the array case recurses (through
`JsVal.jsToStringFuel`); `jsSize` exceeds the array-nesting depth, so the
fuel never runs out. -/
def JsVal.jsToString : JsVal → String
  | .null => "null"
  | .undefined => "undefined"
  | .bool true => "true"
  | .bool false => "false"
  | .num n => toString n
  | .str s => s
  | .obj _ => "[object Object]"
  | .arr elems => (JsVal.arr elems).jsToStringFuel (JsVal.arr elems).jsSize

/-- A thrown JS error: the `Error` message plus the `status` / `data`
properties that `openAI` attaches (absent on plain `Error`s, in which case
`e.status` / `e.data` read back as `undefined`). -/
structure JsError where
  message : String
  status : Option Nat
  data : Option JsVal

/-- Plain property access `v.k`: throws a `TypeError` on nullish `v`,
otherwise agrees with optional chaining. -/
def jsGet (v : JsVal) (k : String) : Except JsError JsVal :=
  match v with
  | .null => .error ⟨"Cannot read properties of null (reading \x27" ++ k ++ "\x27)", none, none⟩
  | .undefined => .error ⟨"Cannot read properties of undefined (reading \x27" ++ k ++ "\x27)", none, none⟩
  | w => .ok (w.getOpt k)

/-- An upstream HTTP response as `openAI` sees it after the external transport
and JSON-parse steps: `ok` is `res.ok`, `status` is `res.status`, and `data`
is the parsed body (the source substitutes `{}` for an empty body and
`{raw: text}` for an unparseable one before this point). -/
structure HttpResp where
  ok : Bool
  status : Nat
  data : JsVal

/-- Response handling of `openAI` (src/server.js lines 36-47): on success
return the parsed payload; otherwise throw an error whose message is
`data?.error?.message` when truthy, else `` `OpenAI request failed (status)` ``,
carrying the HTTP status and the parsed payload. -/
def openAI (res : HttpResp) : Except JsError JsVal :=
  if res.ok then
    .ok res.data
  else
    let m := (res.data.getOpt "error").getOpt "message"
    .error ⟨if m.truthy then m.jsToString else
              "OpenAI request failed (" ++ toString res.status ++ ")",
            some res.status, some res.data⟩

/-- `Array.prototype.find` with a predicate that may throw (as the arrow
functions in `extractLatestAssistantText` do on nullish elements): a thrown
error propagates, a `true` result selects the element. -/
def jsFind (p : JsVal → Except JsError Bool) : List JsVal → Except JsError (Option JsVal)
  | [] => .ok none
  | x :: xs =>
    match p x with
    | .error e => .error e
    | .ok true => .ok (some x)
    | .ok false => jsFind p xs

/-- `Array.isArray(v) ? v : []`, the guard used for `messagesList?.data` and
`assistantMsg.content` (src/server.js lines 98 and 102). -/
def arrEntries (v : JsVal) : List JsVal :=
  match v with
  | .arr xs => xs
  | _ => []

/-- The find callback `(m) => m.role === "assistant"` (src/server.js line 99);
`m.role` is a plain access and throws on a nullish element. -/
def roleIsAssistant (m : JsVal) : Except JsError Bool :=
  match jsGet m "role" with
  | .error e => .error e
  | .ok r => .ok (r.isStr "assistant")

/-- The block predicate `(b) => b.type === "text" && b.text?.value`
(src/server.js line 103); `&&` short-circuits, so `b.text` is only read when
the type matched (by then `b` is known non-nullish). -/
def isTruthyTextBlock (b : JsVal) : Except JsError Bool :=
  match jsGet b "type" with
  | .error e => .error e
  | .ok t =>
    if t.isStr "text" then .ok ((b.getOpt "text").getOpt "value").truthy
    else .ok false

/-- `extractLatestAssistantText` (src/server.js lines 97-105): first message
with role `assistant`, within it the first content block whose `type` is
`"text"` and whose `text?.value` is truthy; result is that value, else `null`
(`textBlock?.text?.value ?? null`).  `m.role` and `b.type` are plain accesses,
so a nullish list element throws.  `assistantMsg.content` and `b.text` are
plain accesses on values already known non-nullish (they survived a property
access in the `find` predicate), hence modelled by `getOpt`. -/
def extractLatestAssistantText (messagesList : JsVal) : Except JsError JsVal :=
  let data := arrEntries (messagesList.getOpt "data")
  match jsFind roleIsAssistant data with
  | .error e => .error e
  | .ok none => .ok .null
  | .ok (some msg) =>
    let blocks := arrEntries (msg.getOpt "content")
    match jsFind isTruthyTextBlock blocks with
    | .error e => .error e
    | .ok none => .ok .null
    | .ok (some tb) =>
      let v := (tb.getOpt "text").getOpt "value"
      .ok (if v.isNullish then .null else v)

/-- A stub upstream: the (post-parse) HTTP response it gives to each of the
relay's five operations.  `getRunResp i` is the response to the `i`-th status
fetch (0-based), so a stub can script a different run status per poll. -/
structure Upstream where
  threadResp : HttpResp
  messageResp : HttpResp
  runResp : HttpResp
  getRunResp : Nat → HttpResp
  listResp : HttpResp

/-- One upstream call performed by the relay, with the arguments that reach
the corresponding wrapper (`createThread`, `addUserMessage`, `createRun`,
`getRun`, `listMessages` in src/server.js). -/
inductive UpCall where
  | createThread
  | addMessage (threadId : JsVal) (message : String)
  | createRun (threadId : JsVal)
  | getRun (threadId runId : JsVal)
  | listMessages (threadId : JsVal) (limit : Nat)

/-- Message of the error thrown on a terminal failure status
(src/server.js line 86): `run.last_error?.message` when truthy, else
`` `Run ${run.status}` ``.  `run.last_error` is a plain access on a `run` that
already survived `run.status`, hence `getOpt`. -/
def runFailMessage (run st : JsVal) : String :=
  let m := (run.getOpt "last_error").getOpt "message"
  if m.truthy then m.jsToString else "Run " ++ st.jsToString

/-- The polling loop of `waitForRunComplete` (src/server.js lines 82-89),
with the remaining attempt budget made explicit: `remaining` counts the loop
iterations still allowed (the source's `40 - i`) and `i` is the source's loop
counter, used to index the scripted status-fetch responses.  The 400 ms sleep
between attempts has no observable effect in this model and is elided.
`trace` accumulates the upstream calls performed so far. -/
def waitLoop (up : Upstream) (tid runId : JsVal) :
    Nat → Nat → List UpCall → List UpCall × Except JsError JsVal
  | 0, _, trace =>
    (trace, .error ⟨"Timed out waiting for assistant response", none, none⟩)
  | remaining + 1, i, trace =>
    let trace2 := trace ++ [UpCall.getRun tid runId]
    match openAI (up.getRunResp i) with
    | .error e => (trace2, .error e)
    | .ok run =>
      match jsGet run "status" with
      | .error e => (trace2, .error e)
      | .ok st =>
        if st.isStr "completed" then (trace2, .ok run)
        else if st.isStr "failed" || st.isStr "cancelled" || st.isStr "expired" then
          (trace2, .error ⟨runFailMessage run st, none, none⟩)
        else
          waitLoop up tid runId remaining (i + 1) trace2

/-- `waitForRunComplete(threadId, runId)` (src/server.js lines 81-91):
up to 40 polls starting at loop counter 0. -/
def waitForRunComplete (up : Upstream) (tid runId : JsVal) (trace : List UpCall) :
    List UpCall × Except JsError JsVal :=
  waitLoop up tid runId 40 0 trace

/-- The HTTP response a handler sends: status code plus JSON body. -/
structure SendResponse where
  status : Nat
  body : JsVal

/-- Body of an error response, `{ error: e.message, details: e.data }`
(src/server.js lines 114 and 137).  When `e.data` is `undefined` (a plain
`Error`), `JSON.stringify` drops the `details` member. -/
def errorBody (e : JsError) : JsVal :=
  .obj ([("error", .str e.message)] ++
    match e.data with
    | some d => [("details", d)]
    | none => [])

/-- `e.status || 500` (src/server.js line 137): the carried status when
present and nonzero, else 500. -/
def jsStatusOr500 (e : JsError) : Nat :=
  match e.status with
  | some s => if s == 0 then 500 else s
  | none => 500

/-- The `try` block of `POST /chat/start` (src/server.js lines 110-113):
create a thread, answer `{ threadId: thread.id }`. -/
def chatStartTry (up : Upstream) : List UpCall × Except JsError JsVal :=
  let trace := [UpCall.createThread]
  match openAI up.threadResp with
  | .error e => (trace, .error e)
  | .ok thread =>
    match jsGet thread "id" with
    | .error e => (trace, .error e)
    | .ok tid => (trace, .ok (.obj [("threadId", tid)]))

/-- `POST /chat/start` (src/server.js lines 109-116): on success respond 200
with the JSON body; on any thrown error respond 500 with `{error, details}`. -/
def chatStart (up : Upstream) : SendResponse × List UpCall :=
  match chatStartTry up with
  | (trace, .ok v) => (⟨200, v⟩, trace)
  | (trace, .error e) => (⟨500, errorBody e⟩, trace)

/-- Tail of the `/chat/send` sequence after the poll succeeded
(src/server.js lines 132-135): list messages (limit 20), extract the reply,
answer `{ threadId: tid, reply: reply || "" }`. -/
def sendFinish (up : Upstream) (tid : JsVal) (trace : List UpCall) :
    List UpCall × Except JsError JsVal :=
  let trace := trace ++ [UpCall.listMessages tid 20]
  match openAI up.listResp with
  | .error e => (trace, .error e)
  | .ok msgs =>
    match extractLatestAssistantText msgs with
    | .error e => (trace, .error e)
    | .ok reply =>
      (trace, .ok (.obj [("threadId", tid),
        ("reply", if reply.truthy then reply else .str "")]))

/-- Continuation after the poll in `/chat/send`: a raised error propagates to
the catch, a completed poll continues with `sendFinish`. -/
def afterPoll (up : Upstream) (tid : JsVal) :
    List UpCall × Except JsError JsVal → List UpCall × Except JsError JsVal
  | (trace, .error e) => (trace, .error e)
  | (trace, .ok _) => sendFinish up tid trace

/-- The `try` block of `POST /chat/send` (src/server.js lines 125-135):
resolve the thread id (reuse the given `threadId` when truthy and a string,
else create a thread and take its `id`), append the user message, create a
run, poll it to completion (`afterPoll`), then `sendFinish`. -/
def chatSendTry (up : Upstream) (threadId : JsVal) (message : String) :
    List UpCall × Except JsError JsVal :=
  let step1 : List UpCall × Except JsError JsVal :=
    if threadId.truthy && threadId.isString then ([], .ok threadId)
    else
      match openAI up.threadResp with
      | .error e => ([UpCall.createThread], .error e)
      | .ok thread => ([UpCall.createThread], jsGet thread "id")
  match step1 with
  | (trace, .error e) => (trace, .error e)
  | (trace, .ok tid) =>
    let trace := trace ++ [UpCall.addMessage tid message]
    match openAI up.messageResp with
    | .error e => (trace, .error e)
    | .ok _ =>
      let trace := trace ++ [UpCall.createRun tid]
      match openAI up.runResp with
      | .error e => (trace, .error e)
      | .ok run =>
        match jsGet run "id" with
        | .error e => (trace, .error e)
        | .ok runId =>
          afterPoll up tid (waitForRunComplete up tid runId trace)

/-- How `/chat/send` answers the outcome of its `try` block: 200 with the
JSON body on success; on a thrown error, status `e.status || 500` and body
`{error, details}` (src/server.js lines 135-138). -/
def sendResponseOf : List UpCall × Except JsError JsVal → SendResponse × List UpCall
  | (trace, .ok v) => (⟨200, v⟩, trace)
  | (trace, .error e) => (⟨jsStatusOr500 e, errorBody e⟩, trace)

/-- `POST /chat/send` (src/server.js lines 118-139).  Destructures
`req.body || {}`, rejects a falsy or non-string `message` with a 400 and no
upstream call, then runs the `try` block and answers its outcome. -/
def chatSend (up : Upstream) (reqBody : JsVal) : SendResponse × List UpCall :=
  let body := if reqBody.truthy then reqBody else .obj []
  let threadId := body.getOpt "threadId"
  let message := body.getOpt "message"
  if !message.truthy || !message.isString then
    (⟨400, .obj [("error", .str "Missing or invalid \x27message\x27 string")]⟩, [])
  else
    sendResponseOf (chatSendTry up threadId message.jsToString)

/-- A run status is terminal when it ends the polling loop: `completed`
succeeds, the other three raise. -/
def isTerminal (s : String) : Bool :=
  s == "completed" || s == "failed" || s == "cancelled" || s == "expired"

/-! ### Concrete stub inputs used to instantiate the claims -/

/-- A freshly created thread as the stub upstream reports it. -/
def stubThread : JsVal := .obj [("id", .str "thread_abc")]

/-- A run object with the given status. -/
def stubRun (s : String) : JsVal :=
  .obj [("id", .str "run_abc"), ("status", .str s)]

/-- An assistant message whose content is `[{type:"text", text:{value:"hello"}}]`. -/
def helloMessage : JsVal :=
  .obj [("role", .str "assistant"),
    ("content", .arr [.obj [("type", .str "text"),
      ("text", .obj [("value", .str "hello")])]])]

/-- A benign stub upstream: every operation succeeds and the run completes on
the first poll. -/
def upOk : Upstream :=
  { threadResp := ⟨true, 200, stubThread⟩
    messageResp := ⟨true, 200, .obj []⟩
    runResp := ⟨true, 200, stubRun "queued"⟩
    getRunResp := fun _ => ⟨true, 200, stubRun "completed"⟩
    listResp := ⟨true, 200, .obj [("data", .arr [helloMessage])]⟩ }

/-- Stub upstream whose run is `in_progress` on the first poll and `completed`
on the second. -/
def upPoll2 : Upstream :=
  { upOk with getRunResp := fun i =>
      if i == 0 then ⟨true, 200, stubRun "in_progress"⟩
      else ⟨true, 200, stubRun "completed"⟩ }

/-- The statuses scripted by `upPoll2`. -/
def stsPoll2 (i : Nat) : String :=
  if i == 0 then "in_progress" else "completed"

/-- Stub upstream whose run never leaves `in_progress`. -/
def upNeverDone : Upstream :=
  { upOk with getRunResp := fun _ => ⟨true, 200, stubRun "in_progress"⟩ }

/-- A failed run carrying `last_error.message = "boom"`. -/
def runFailedBoom : JsVal :=
  .obj [("id", .str "run_abc"), ("status", .str "failed"),
    ("last_error", .obj [("message", .str "boom")])]

/-- Stub upstream whose run is `failed` with `last_error.message = "boom"` on
the first poll. -/
def upRunBoom : Upstream :=
  { upOk with getRunResp := fun _ => ⟨true, 200, runFailedBoom⟩ }

/-- A failed run whose `last_error.message` is present but the empty string. -/
def runFailedEmptyMsg : JsVal :=
  .obj [("id", .str "run_abc"), ("status", .str "failed"),
    ("last_error", .obj [("message", .str "")])]

/-- Stub upstream whose run fails with an empty `last_error.message` on the
first poll. -/
def upRunFailedEmpty : Upstream :=
  { upOk with getRunResp := fun _ => ⟨true, 200, runFailedEmptyMsg⟩ }

/-- An upstream error payload with `error.message = "nope"`. -/
def errPayloadNope : JsVal := .obj [("error", .obj [("message", .str "nope")])]

/-- An upstream error payload whose `error.message` is present but the empty
string. -/
def errPayloadEmpty : JsVal := .obj [("error", .obj [("message", .str "")])]

/-- Stub upstream whose thread creation fails with HTTP 404. -/
def upStart404 : Upstream :=
  { upOk with threadResp := ⟨false, 404, errPayloadNope⟩ }

/-- Stub upstream whose message append fails with HTTP 401. -/
def upSendFail401 : Upstream :=
  { upOk with messageResp := ⟨false, 401, errPayloadNope⟩ }

/-- A messages list whose `data` array contains a `null` entry. -/
def badMessagesList : JsVal := .obj [("data", .arr [.null])]

/-- Stub upstream whose message listing has no assistant entry at all. -/
def upNoReply : Upstream :=
  { upOk with listResp := ⟨true, 200, .obj [("data", .arr [])]⟩ }

/-! ### Basic lemmas about the embedding -/

@[simp]
theorem JsVal.isStr_str (s t : String) : (JsVal.str s).isStr t = (s == t) := rfl

@[simp]
theorem JsVal.truthy_str (s : String) : (JsVal.str s).truthy = (s != "") := rfl

@[simp]
theorem JsVal.isString_str (s : String) : (JsVal.str s).isString = true := rfl

@[simp]
theorem JsVal.jsToString_str (s : String) : (JsVal.str s).jsToString = s := rfl

@[simp]
theorem arrEntries_arr (xs : List JsVal) : arrEntries (.arr xs) = xs := rfl

theorem JsVal.isNullish_eq_false_of_truthy {v : JsVal} (h : v.truthy = true) :
    v.isNullish = false := by
  cases v <;> simp_all [JsVal.truthy, JsVal.isNullish]

theorem openAI_ok {res : HttpResp} (h : res.ok = true) : openAI res = .ok res.data := by
  simp [openAI, h]

theorem jsGet_ok_of_not_nullish {v : JsVal} (h : v.isNullish = false) (k : String) :
    jsGet v k = .ok (v.getOpt k) := by
  cases v <;> simp_all [jsGet, JsVal.isNullish]

theorem jsFind_eq_none {p : JsVal → Except JsError Bool} {l : List JsVal}
    (h : ∀ y ∈ l, p y = .ok false) : jsFind p l = .ok none := by
  induction l with
  | nil => rfl
  | cons x xs ih =>
    have hx := h x (List.mem_cons_self x xs)
    simp only [jsFind, hx]
    exact ih fun y hy => h y (List.mem_cons_of_mem x hy)

theorem jsFind_append_found {p : JsVal → Except JsError Bool} {l₁ l₂ : List JsVal} {x : JsVal}
    (h₁ : ∀ y ∈ l₁, p y = .ok false) (hx : p x = .ok true) :
    jsFind p (l₁ ++ x :: l₂) = .ok (some x) := by
  induction l₁ with
  | nil => simp [jsFind, hx]
  | cons z zs ih =>
    have hz := h₁ z (List.mem_cons_self z zs)
    simp only [List.cons_append, jsFind, hz]
    exact ih fun y hy => h₁ y (List.mem_cons_of_mem z hy)

theorem jsFind_total {p : JsVal → Except JsError Bool} {l : List JsVal}
    (h : ∀ y ∈ l, ∃ b, p y = .ok b) :
    ∃ o, jsFind p l = .ok o ∧ ∀ x, o = some x → x ∈ l := by
  induction l with
  | nil => exact ⟨none, rfl, by simp⟩
  | cons z zs ih =>
    obtain ⟨b, hb⟩ := h z (List.mem_cons_self z zs)
    cases b with
    | true =>
      refine ⟨some z, ?_, ?_⟩
      · simp [jsFind, hb]
      · intro x hx
        cases hx
        exact List.mem_cons_self z zs
    | false =>
      obtain ⟨o, ho, hmem⟩ := ih fun y hy => h y (List.mem_cons_of_mem z hy)
      refine ⟨o, ?_, fun x hx => List.mem_cons_of_mem z (hmem x hx)⟩
      simp [jsFind, hb, ho]

theorem isTerminal_eq_false_iff {s : String} :
    isTerminal s = false ↔
      s ≠ "completed" ∧ s ≠ "failed" ∧ s ≠ "cancelled" ∧ s ≠ "expired" := by
  simp [isTerminal, and_assoc]

/-- Behaviour of the polling loop when the run completes on the `(d+1)`-st
fetch counting from loop counter `i` (all earlier fetches succeed with a
non-terminal status): exactly `d + 1` further status fetches, returning the
completed run. -/
theorem waitLoop_completed (up : Upstream) (tid rid : JsVal) (sts : Nat → String) :
    ∀ (d r i : Nat) (t : List UpCall), d < r →
      (∀ k, k ≤ d → (up.getRunResp (i + k)).ok = true) →
      (∀ k, k ≤ d → jsGet (up.getRunResp (i + k)).data "status" = .ok (.str (sts (i + k)))) →
      (∀ k, k < d → isTerminal (sts (i + k)) = false) →
      sts (i + d) = "completed" →
      waitLoop up tid rid r i t =
        (t ++ List.replicate (d + 1) (UpCall.getRun tid rid),
         .ok (up.getRunResp (i + d)).data) := by
  intro d
  induction d with
  | zero =>
    intro r i t hr hok hst _ hdone
    match r, hr with
    | r' + 1, _ =>
      have hok0 : (up.getRunResp i).ok = true := by simpa using hok 0 (Nat.le_refl 0)
      have hst0 : jsGet (up.getRunResp i).data "status" = .ok (.str (sts i)) := by
        simpa using hst 0 (Nat.le_refl 0)
      have hdone0 : sts i = "completed" := by simpa using hdone
      rw [waitLoop]
      simp only [openAI_ok hok0, hst0]
      simp [hdone0, List.replicate_succ]
  | succ d ih =>
    intro r i t hr hok hst hpre hdone
    match r, hr with
    | r' + 1, _ =>
      have hok0 : (up.getRunResp i).ok = true := by simpa using hok 0 (Nat.zero_le _)
      have hst0 : jsGet (up.getRunResp i).data "status" = .ok (.str (sts i)) := by
        simpa using hst 0 (Nat.zero_le _)
      have h0 : isTerminal (sts i) = false := by simpa using hpre 0 (Nat.succ_pos d)
      rw [isTerminal_eq_false_iff] at h0
      rw [waitLoop]
      simp only [openAI_ok hok0, hst0, JsVal.isStr_str]
      rw [if_neg (by simp [h0.1]), if_neg (by simp [h0.2.1, h0.2.2.1, h0.2.2.2])]
      have ihres := ih r' (i + 1) (t ++ [UpCall.getRun tid rid]) (by omega)
        (fun k hk => by
          have e : i + 1 + k = i + (k + 1) := by omega
          rw [e]; exact hok (k + 1) (by omega))
        (fun k hk => by
          have e : i + 1 + k = i + (k + 1) := by omega
          rw [e]; exact hst (k + 1) (by omega))
        (fun k hk => by
          have e : i + 1 + k = i + (k + 1) := by omega
          rw [e]; exact hpre (k + 1) (by omega))
        (by
          have e : i + 1 + d = i + (d + 1) := by omega
          rw [e]; exact hdone)
      have e : i + 1 + d = i + (d + 1) := by omega
      rw [ihres, e]
      simp [List.replicate_succ, List.append_assoc]

/-- Behaviour of the polling loop when every remaining fetch succeeds with a
non-terminal status: all `r` attempts are spent and the loop times out. -/
theorem waitLoop_timeout (up : Upstream) (tid rid : JsVal) (sts : Nat → String) :
    ∀ (r i : Nat) (t : List UpCall),
      (∀ k, k < r → (up.getRunResp (i + k)).ok = true) →
      (∀ k, k < r → jsGet (up.getRunResp (i + k)).data "status" = .ok (.str (sts (i + k)))) →
      (∀ k, k < r → isTerminal (sts (i + k)) = false) →
      waitLoop up tid rid r i t =
        (t ++ List.replicate r (UpCall.getRun tid rid),
         .error ⟨"Timed out waiting for assistant response", none, none⟩) := by
  intro r
  induction r with
  | zero => intro i t _ _ _; simp [waitLoop]
  | succ r ih =>
    intro i t hok hst hnt
    have hok0 : (up.getRunResp i).ok = true := by simpa using hok 0 (Nat.succ_pos r)
    have hst0 : jsGet (up.getRunResp i).data "status" = .ok (.str (sts i)) := by
      simpa using hst 0 (Nat.succ_pos r)
    have h0 : isTerminal (sts i) = false := by simpa using hnt 0 (Nat.succ_pos r)
    rw [isTerminal_eq_false_iff] at h0
    rw [waitLoop]
    simp only [openAI_ok hok0, hst0, JsVal.isStr_str]
    rw [if_neg (by simp [h0.1]), if_neg (by simp [h0.2.1, h0.2.2.1, h0.2.2.2])]
    have ihres := ih (i + 1) (t ++ [UpCall.getRun tid rid])
      (fun k hk => by
        have e : i + 1 + k = i + (k + 1) := by omega
        rw [e]; exact hok (k + 1) (by omega))
      (fun k hk => by
        have e : i + 1 + k = i + (k + 1) := by omega
        rw [e]; exact hst (k + 1) (by omega))
      (fun k hk => by
        have e : i + 1 + k = i + (k + 1) := by omega
        rw [e]; exact hnt (k + 1) (by omega))
    rw [ihres]
    simp [List.replicate_succ, List.append_assoc]

/-- Whatever the list/extract outcome, `sendFinish` performs exactly one more
upstream call, the message listing. -/
theorem sendFinish_fst (up : Upstream) (tid : JsVal) (t : List UpCall) :
    (sendFinish up tid t).1 = t ++ [UpCall.listMessages tid 20] := by
  cases h : openAI up.listResp with
  | error e => simp [sendFinish, h]
  | ok msgs =>
    cases h2 : extractLatestAssistantText msgs with
    | error e => simp [sendFinish, h, h2]
    | ok reply => simp [sendFinish, h, h2]

/-- The response to a `/chat/send` request carries exactly the upstream-call
trace of its `try` block. -/
theorem sendResponseOf_snd (X : List UpCall × Except JsError JsVal) :
    (sendResponseOf X).2 = X.1 := by
  rcases X with ⟨t, res⟩
  cases res <;> rfl

/-- Unfolding of `chatSend` on a request that passes validation. -/
theorem chatSend_valid_eq (up : Upstream) (reqBody bt : JsVal) (msg : String)
    (hb : reqBody.truthy = true)
    (hbt : reqBody.getOpt "threadId" = bt)
    (hbm : reqBody.getOpt "message" = .str msg)
    (hmsg : msg ≠ "") :
    chatSend up reqBody = sendResponseOf (chatSendTry up bt msg) := by
  have hm' : (msg != "") = true := by simpa using hmsg
  simp [chatSend, hb, hbt, hbm, hm']

/-- Unfolding of the `/chat/send` try block when the caller supplied a
non-empty string `threadId` and both the message append and the run creation
succeed: reach the poll with the first two calls traced. -/
theorem chatSendTry_given_tid (up : Upstream) (tidS msg : String)
    (htid : tidS ≠ "")
    (hm : up.messageResp.ok = true) (hr : up.runResp.ok = true)
    (rid : JsVal) (hrid : jsGet up.runResp.data "id" = .ok rid) :
    chatSendTry up (.str tidS) msg =
      afterPoll up (.str tidS) (waitForRunComplete up (.str tidS) rid
        [UpCall.addMessage (.str tidS) msg, UpCall.createRun (.str tidS)]) := by
  have htid' : (tidS != "") = true := by simpa using htid
  simp [chatSendTry, htid', openAI_ok hm, openAI_ok hr, hrid]

/-- Unfolding of the `/chat/send` try block when the supplied `threadId` is
not a string (in particular absent, i.e. `undefined`): a thread is created
first and its `id` becomes the thread id of the whole sequence. -/
theorem chatSendTry_new_thread (up : Upstream) (bt : JsVal) (msg : String)
    (hbt : bt.isString = false)
    (ht : up.threadResp.ok = true)
    (tidV : JsVal) (htidV : jsGet up.threadResp.data "id" = .ok tidV)
    (hm : up.messageResp.ok = true) (hr : up.runResp.ok = true)
    (rid : JsVal) (hrid : jsGet up.runResp.data "id" = .ok rid) :
    chatSendTry up bt msg =
      afterPoll up tidV (waitForRunComplete up tidV rid
        [UpCall.createThread, UpCall.addMessage tidV msg, UpCall.createRun tidV]) := by
  simp [chatSendTry, hbt, openAI_ok ht, htidV, openAI_ok hm, openAI_ok hr, hrid]

/-! ### Claim theorems -/

/-- C2: every `POST /chat/send` request whose body has a missing or
non-string `message` is answered with HTTP 400 and the descriptive error
body, with an empty upstream-call trace — zero upstream calls of any kind. -/
theorem chatSend_invalid_message_rejected (up : Upstream) (reqBody : JsVal)
    (h : ((if reqBody.truthy then reqBody else JsVal.obj []).getOpt "message").isString
      = false) :
    chatSend up reqBody =
      (⟨400, .obj [("error", .str "Missing or invalid \x27message\x27 string")]⟩, []) := by
  simp [chatSend, h]

/-- C2 witness: a body with a numeric `message` is answered 400 against the
benign stub upstream, with no upstream call recorded. -/
theorem chatSend_invalid_message_rejected_witness :
    chatSend upOk (.obj [("message", .num 5)]) =
      (⟨400, .obj [("error", .str "Missing or invalid \x27message\x27 string")]⟩, []) :=
  chatSend_invalid_message_rejected upOk (.obj [("message", .num 5)]) rfl

/-- C10: the empty-string `message` is present and string-typed, yet
validation rejects it (the `!message` test rejects every falsy value): the
response is HTTP 400 and no upstream call is performed, whatever the
upstream. -/
theorem chatSend_rejects_empty_string_message (up : Upstream) :
    ((JsVal.obj [("message", JsVal.str "")]).getOpt "message").isString = true ∧
    chatSend up (.obj [("message", .str "")]) =
      (⟨400, .obj [("error", .str "Missing or invalid \x27message\x27 string")]⟩, []) :=
  ⟨rfl, rfl⟩

/-- C10 witness: the empty-string `message` rejection at the benign stub
upstream. -/
theorem chatSend_rejects_empty_string_message_witness :
    ((JsVal.obj [("message", JsVal.str "")]).getOpt "message").isString = true ∧
    chatSend upOk (.obj [("message", .str "")]) =
      (⟨400, .obj [("error", .str "Missing or invalid \x27message\x27 string")]⟩, []) :=
  chatSend_rejects_empty_string_message upOk

/-- C7 (amended): for every non-success upstream response, `openAI` raises a
failure carrying the HTTP status code and the full parsed payload, and whose
message is the payload's `error.message` (JS-coerced to a string) when that
value is truthy — in particular whenever it is a non-empty string — else the
generic message naming the status.  The claim's "when present" is amended to
"when present and truthy": a present-but-falsy `error.message` (such as `""`)
yields the generic message, see the counterexample. -/
theorem openAI_error_contract (res : HttpResp) (h : res.ok = false) :
    openAI res =
      .error ⟨if ((res.data.getOpt "error").getOpt "message").truthy then
                ((res.data.getOpt "error").getOpt "message").jsToString
              else "OpenAI request failed (" ++ toString res.status ++ ")",
              some res.status, some res.data⟩ := by
  simp [openAI, h]

/-- C7 witness: a 404 response whose payload carries `error.message = "nope"`
raises a failure with message `"nope"`, status 404 and the payload. -/
theorem openAI_error_contract_witness :
    openAI ⟨false, 404, errPayloadNope⟩ =
      .error ⟨"nope", some 404, some errPayloadNope⟩ :=
  openAI_error_contract ⟨false, 404, errPayloadNope⟩ rfl

/-- C7 counterexample: on a non-success response whose payload has
`error.message` present but equal to `""`, the raised failure's message is
the generic `"OpenAI request failed (500)"`, not the payload's `""` — so the
message is not the `error.message` field whenever that field is present. -/
theorem openAI_empty_error_message_counterexample :
    (errPayloadEmpty.getOpt "error").getOpt "message" = .str "" ∧
    openAI ⟨false, 500, errPayloadEmpty⟩ =
      .error ⟨"OpenAI request failed (500)", some 500, some errPayloadEmpty⟩ ∧
    "OpenAI request failed (500)" ≠ "" :=
  ⟨rfl, rfl, by decide⟩

/-- C4 (amended): if the first status fetch returns a run whose status is
`failed`, `cancelled` or `expired`, the poller raises immediately — exactly
one status fetch, no further polling — and the failure's message is the run's
`last_error?.message` (JS-coerced) when truthy, in particular whenever it is
a non-empty string, else the generic `Run <status>` naming the status.  The
claim's "when present" is amended to "when present and truthy": a
present-but-empty message yields the generic message, see the
counterexample.  With `last_error.message = "boom"` this gives exactly one
poll and message `"boom"` (see the witness). -/
theorem waitForRunComplete_terminal_failure
    (up : Upstream) (tid rid : JsVal) (t : List UpCall) (s : String)
    (hok : (up.getRunResp 0).ok = true)
    (hst : jsGet (up.getRunResp 0).data "status" = .ok (.str s))
    (hfail : s = "failed" ∨ s = "cancelled" ∨ s = "expired") :
    waitForRunComplete up tid rid t =
      (t ++ [UpCall.getRun tid rid],
       .error ⟨runFailMessage (up.getRunResp 0).data (.str s), none, none⟩) ∧
    (∀ m : JsVal,
        ((up.getRunResp 0).data.getOpt "last_error").getOpt "message" = m →
        m.truthy = true →
        runFailMessage (up.getRunResp 0).data (.str s) = m.jsToString) ∧
    ((((up.getRunResp 0).data.getOpt "last_error").getOpt "message").truthy = false →
        runFailMessage (up.getRunResp 0).data (.str s) = "Run " ++ s) := by
  refine ⟨?_, ?_, ?_⟩
  · rw [waitForRunComplete, show (40 : Nat) = 39 + 1 from rfl, waitLoop]
    simp only [openAI_ok hok, hst, JsVal.isStr_str]
    rcases hfail with h | h | h <;> subst h <;> simp
  · intro m hm htr
    simp [runFailMessage, hm, htr]
  · intro htr
    simp [runFailMessage, htr]

/-- C4 witness: status `failed` with `last_error.message = "boom"` on the
first poll yields exactly one status fetch and the failure message `"boom"`. -/
theorem waitForRunComplete_terminal_failure_witness :
    waitForRunComplete upRunBoom (.str "t") (.str "r") [] =
      ([UpCall.getRun (.str "t") (.str "r")], .error ⟨"boom", none, none⟩) :=
  (waitForRunComplete_terminal_failure upRunBoom (.str "t") (.str "r") [] "failed"
    rfl rfl (Or.inl rfl)).1

/-- C4 counterexample: status `failed` with `last_error.message` present but
equal to `""` on the first poll: one poll, but the failure message is the
generic `"Run failed"`, not the upstream-provided `""` — so the message does
not equal the run's `last_error` message whenever that message is present. -/
theorem waitForRunComplete_empty_last_error_counterexample :
    (runFailedEmptyMsg.getOpt "last_error").getOpt "message" = .str "" ∧
    waitForRunComplete upRunFailedEmpty (.str "t") (.str "r") [] =
      ([UpCall.getRun (.str "t") (.str "r")], .error ⟨"Run failed", none, none⟩) ∧
    "Run failed" ≠ "" :=
  ⟨rfl, rfl, by decide⟩

/-- C9 (amended): `extractLatestAssistantText` never throws and returns a
value on every input — including a null message list, a non-array `data`, a
non-array `content` and blocks missing a `text` object — provided the entries
of the `data` array and of the selected `content` arrays are not nullish.  On
a nullish array entry the plain `.role` / `.type` access inside the `find`
callbacks throws a TypeError, refuting unrestricted totality (see the
counterexample); the returned value is the selected nested `text.value`
(which the code does not force to be a string) or null. -/
theorem extractLatestAssistantText_total_of_not_nullish (msgs : JsVal)
    (h1 : ∀ x ∈ arrEntries (msgs.getOpt "data"), x.isNullish = false)
    (h2 : ∀ x ∈ arrEntries (msgs.getOpt "data"),
        ∀ b ∈ arrEntries (x.getOpt "content"), b.isNullish = false) :
    ∃ v, extractLatestAssistantText msgs = .ok v := by
  obtain ⟨o, ho, hmem⟩ :=
    jsFind_total (p := roleIsAssistant) (l := arrEntries (msgs.getOpt "data"))
      (fun y hy => ⟨(y.getOpt "role").isStr "assistant", by
        simp [roleIsAssistant, jsGet_ok_of_not_nullish (h1 y hy)]⟩)
  cases o with
  | none => exact ⟨.null, by simp [extractLatestAssistantText, ho]⟩
  | some msg =>
    have hmsg : msg ∈ arrEntries (msgs.getOpt "data") := hmem msg rfl
    obtain ⟨o2, ho2, _⟩ :=
      jsFind_total (p := isTruthyTextBlock) (l := arrEntries (msg.getOpt "content"))
        (fun b hb =>
          ⟨if (b.getOpt "type").isStr "text" then
              ((b.getOpt "text").getOpt "value").truthy else false, by
            simp only [isTruthyTextBlock,
              jsGet_ok_of_not_nullish (h2 msg hmsg b hb)]
            split <;> rfl⟩)
    cases o2 with
    | none => exact ⟨.null, by simp [extractLatestAssistantText, ho, ho2]⟩
    | some tb =>
      exact ⟨if ((tb.getOpt "text").getOpt "value").isNullish then .null
             else (tb.getOpt "text").getOpt "value",
        by simp [extractLatestAssistantText, ho, ho2]⟩

/-- C9 witness: totality on the well-formed hello message list. -/
theorem extractLatestAssistantText_total_of_not_nullish_witness :
    ∃ v, extractLatestAssistantText (.obj [("data", .arr [helloMessage])]) = .ok v :=
  extractLatestAssistantText_total_of_not_nullish (.obj [("data", .arr [helloMessage])])
    (by
      intro x hx
      have hx' : x ∈ [helloMessage] := hx
      rw [List.mem_singleton] at hx'
      subst hx'
      rfl)
    (by
      intro x hx b hb
      have hx' : x ∈ [helloMessage] := hx
      rw [List.mem_singleton] at hx'
      subst hx'
      have hb' : b ∈ [JsVal.obj [("type", .str "text"),
          ("text", .obj [("value", .str "hello")])]] := hb
      rw [List.mem_singleton] at hb'
      subst hb'
      rfl)

/-- C9 counterexample: on `{data: [null]}` the `find` callback reads `.role`
of `null`, so extraction throws a TypeError instead of returning a string or
null. -/
theorem extractLatestAssistantText_throws_counterexample :
    extractLatestAssistantText badMessagesList =
      .error ⟨"Cannot read properties of null (reading \x27role\x27)", none, none⟩ := rfl

/-- C8 (amended): every failure raised during the `/chat/send` upstream
sequence is answered with JSON body `{ error, details }` and status
`e.status || 500` — the failure's carried upstream HTTP status when present
(and nonzero), else 500.  `/chat/start`, however, answers every failure with
status 500 unconditionally, even when the failure carries an upstream status:
the claim's "status equals the carried status when present" holds only for
`/chat/send` and is amended to "always 500" for `/chat/start`, see the
counterexample. -/
theorem relay_error_response_contract :
    (∀ (up : Upstream) (reqBody bt : JsVal) (msg : String) (t : List UpCall) (e : JsError),
      reqBody.truthy = true →
      reqBody.getOpt "threadId" = bt →
      reqBody.getOpt "message" = .str msg →
      msg ≠ "" →
      chatSendTry up bt msg = (t, .error e) →
      chatSend up reqBody = (⟨jsStatusOr500 e, errorBody e⟩, t)) ∧
    (∀ (up : Upstream) (t : List UpCall) (e : JsError),
      chatStartTry up = (t, .error e) →
      chatStart up = (⟨500, errorBody e⟩, t)) := by
  constructor
  · intro up reqBody bt msg t e hb hbt hbm hmsg htry
    rw [chatSend_valid_eq up reqBody bt msg hb hbt hbm hmsg, htry]
    rfl
  · intro up t e htry
    rw [chatStart, htry]

/-- C8 witness: a 401 append failure surfaces through `/chat/send` with
status 401 and `{error, details}`; a 404 thread-creation failure surfaces
through `/chat/start` with status 500 and `{error, details}`. -/
theorem relay_error_response_contract_witness :
    chatSend upSendFail401 (.obj [("threadId", .str "T"), ("message", .str "hi")]) =
      (⟨401, .obj [("error", .str "nope"), ("details", errPayloadNope)]⟩,
       [UpCall.addMessage (.str "T") "hi"]) ∧
    chatStart upStart404 =
      (⟨500, .obj [("error", .str "nope"), ("details", errPayloadNope)]⟩,
       [UpCall.createThread]) :=
  ⟨relay_error_response_contract.1 upSendFail401
      (.obj [("threadId", .str "T"), ("message", .str "hi")]) (.str "T") "hi"
      [UpCall.addMessage (.str "T") "hi"] ⟨"nope", some 401, some errPayloadNope⟩
      rfl rfl rfl (by decide) rfl,
   relay_error_response_contract.2 upStart404 [UpCall.createThread]
      ⟨"nope", some 404, some errPayloadNope⟩ rfl⟩

/-- C8 counterexample: a `/chat/start` failure that carries upstream HTTP
status 404 is nonetheless answered with response status 500: the response
status does not equal the failure's carried status although one is present. -/
theorem chatStart_fixed_500_counterexample :
    openAI upStart404.threadResp = .error ⟨"nope", some 404, some errPayloadNope⟩ ∧
    chatStart upStart404 =
      (⟨500, .obj [("error", .str "nope"), ("details", errPayloadNope)]⟩,
       [UpCall.createThread]) ∧
    (500 : Nat) ≠ 404 :=
  ⟨rfl, rfl, by decide⟩

/-- C1: for every valid (non-empty string) `message`, if the request's
`threadId` is absent or not a string, the relay's first upstream call is the
thread creation — before the message append — and the created thread's `id`
is the `threadId` of the success response. -/
theorem chatSend_creates_thread_before_append
    (up : Upstream) (reqBody bt : JsVal) (msg : String)
    (hb : reqBody.truthy = true)
    (hbt : reqBody.getOpt "threadId" = bt)
    (hbts : bt.isString = false)
    (hbm : reqBody.getOpt "message" = .str msg)
    (hmsg : msg ≠ "")
    (ht : up.threadResp.ok = true)
    (tidV : JsVal) (htidV : jsGet up.threadResp.data "id" = .ok tidV)
    (hm : up.messageResp.ok = true)
    (hr : up.runResp.ok = true)
    (rid : JsVal) (hrid : jsGet up.runResp.data "id" = .ok rid)
    (hc0 : (up.getRunResp 0).ok = true)
    (hc0st : jsGet (up.getRunResp 0).data "status" = .ok (.str "completed"))
    (hl : up.listResp.ok = true)
    (reply : JsVal) (hx : extractLatestAssistantText up.listResp.data = .ok reply) :
    chatSend up reqBody =
      (⟨200, .obj [("threadId", tidV),
          ("reply", if reply.truthy then reply else .str "")]⟩,
       [UpCall.createThread, UpCall.addMessage tidV msg, UpCall.createRun tidV,
        UpCall.getRun tidV rid, UpCall.listMessages tidV 20]) := by
  have hwert : waitForRunComplete up tidV rid
      [UpCall.createThread, UpCall.addMessage tidV msg, UpCall.createRun tidV] =
      ([UpCall.createThread, UpCall.addMessage tidV msg, UpCall.createRun tidV] ++
        [UpCall.getRun tidV rid], .ok (up.getRunResp 0).data) := by
    have h := waitLoop_completed up tidV rid (fun _ => "completed") 0 40 0
      [UpCall.createThread, UpCall.addMessage tidV msg, UpCall.createRun tidV]
      (by omega)
      (fun k hk => by
        have hk0 : k = 0 := by omega
        subst hk0
        simpa using hc0)
      (fun k hk => by
        have hk0 : k = 0 := by omega
        subst hk0
        simpa using hc0st)
      (fun k hk => absurd hk (by omega))
      rfl
    rw [waitForRunComplete]
    simpa [List.replicate] using h
  rw [chatSend_valid_eq up reqBody bt msg hb hbt hbm hmsg,
    chatSendTry_new_thread up bt msg hbts ht tidV htidV hm hr rid hrid, hwert]
  simp [afterPoll, sendFinish, sendResponseOf, openAI_ok hl, hx]

/-- C1 witness: a request with no `threadId` against the benign stub: the
trace opens with the thread creation, then the append, and the response's
`threadId` is the created thread's id. -/
theorem chatSend_creates_thread_before_append_witness :
    chatSend upOk (.obj [("message", .str "hi")]) =
      (⟨200, .obj [("threadId", .str "thread_abc"), ("reply", .str "hello")]⟩,
       [UpCall.createThread, UpCall.addMessage (.str "thread_abc") "hi",
        UpCall.createRun (.str "thread_abc"),
        UpCall.getRun (.str "thread_abc") (.str "run_abc"),
        UpCall.listMessages (.str "thread_abc") 20]) :=
  chatSend_creates_thread_before_append upOk (.obj [("message", .str "hi")]) .undefined "hi"
    rfl rfl rfl rfl (by decide) rfl (.str "thread_abc") rfl rfl rfl (.str "run_abc") rfl
    rfl rfl rfl (.str "hello") rfl

/-- C3: for every N with 1 ≤ N ≤ 40, against an upstream that answers the
N-th status fetch with a `completed` run and the earlier fetches with
non-terminal statuses, the poller makes exactly N status fetches and returns
the fetched run, and the relay's only further upstream call is the message
listing, performed right after the poll. -/
theorem chatSend_polls_exactly_n
    (up : Upstream) (N : Nat) (tidS msg : String) (sts : Nat → String)
    (h1 : 1 ≤ N) (h40 : N ≤ 40)
    (htid : tidS ≠ "") (hmsg : msg ≠ "")
    (hm : up.messageResp.ok = true) (hr : up.runResp.ok = true)
    (rid : JsVal) (hrid : jsGet up.runResp.data "id" = .ok rid)
    (hok : ∀ k, k < N → (up.getRunResp k).ok = true)
    (hst : ∀ k, k < N → jsGet (up.getRunResp k).data "status" = .ok (.str (sts k)))
    (hpre : ∀ k, k + 1 < N → isTerminal (sts k) = false)
    (hdone : sts (N - 1) = "completed") :
    waitForRunComplete up (.str tidS) rid [] =
      (List.replicate N (UpCall.getRun (.str tidS) rid),
       .ok (up.getRunResp (N - 1)).data) ∧
    (chatSend up (.obj [("threadId", .str tidS), ("message", .str msg)])).2 =
      [UpCall.addMessage (.str tidS) msg, UpCall.createRun (.str tidS)] ++
        List.replicate N (UpCall.getRun (.str tidS) rid) ++
        [UpCall.listMessages (.str tidS) 20] := by
  have hwait : ∀ t, waitForRunComplete up (.str tidS) rid t =
      (t ++ List.replicate N (UpCall.getRun (.str tidS) rid),
       .ok (up.getRunResp (N - 1)).data) := by
    intro t
    have h := waitLoop_completed up (.str tidS) rid sts (N - 1) 40 0 t (by omega)
      (fun k hk => by simpa using hok k (by omega))
      (fun k hk => by simpa using hst k (by omega))
      (fun k hk => by simpa using hpre k (by omega))
      (by simpa using hdone)
    have e : N - 1 + 1 = N := by omega
    rw [waitForRunComplete]
    simpa [e] using h
  refine ⟨by simpa using hwait [], ?_⟩
  rw [chatSend_valid_eq up (.obj [("threadId", .str tidS), ("message", .str msg)])
      (.str tidS) msg rfl rfl rfl hmsg, sendResponseOf_snd,
    chatSendTry_given_tid up tidS msg htid hm hr rid hrid, hwait]
  simpa [List.append_assoc] using sendFinish_fst up (.str tidS)
    ([UpCall.addMessage (.str tidS) msg, UpCall.createRun (.str tidS)] ++
      List.replicate N (UpCall.getRun (.str tidS) rid))

/-- C3 witness: with a run `in_progress` on the first poll and `completed` on
the second (N = 2), the poller makes exactly two status fetches, returns the
completed run, and the listing follows. -/
theorem chatSend_polls_exactly_n_witness :
    waitForRunComplete upPoll2 (.str "T") (.str "run_abc") [] =
      (List.replicate 2 (UpCall.getRun (.str "T") (.str "run_abc")),
       .ok (stubRun "completed")) ∧
    (chatSend upPoll2 (.obj [("threadId", .str "T"), ("message", .str "hi")])).2 =
      [UpCall.addMessage (.str "T") "hi", UpCall.createRun (.str "T")] ++
        List.replicate 2 (UpCall.getRun (.str "T") (.str "run_abc")) ++
        [UpCall.listMessages (.str "T") 20] :=
  chatSend_polls_exactly_n upPoll2 2 "T" "hi" stsPoll2 (by decide) (by decide)
    (by decide) (by decide) rfl rfl (.str "run_abc") rfl
    (by
      intro k hk
      have h2 : k = 0 ∨ k = 1 := by omega
      rcases h2 with rfl | rfl <;> rfl)
    (by
      intro k hk
      have h2 : k = 0 ∨ k = 1 := by omega
      rcases h2 with rfl | rfl <;> rfl)
    (by
      intro k hk
      have h2 : k = 0 := by omega
      subst h2
      rfl)
    rfl

/-- C5: against an upstream that never answers a terminal status, the poller
makes exactly 40 status fetches and raises the timeout failure, and the relay
never performs a message listing for that request. -/
theorem chatSend_poll_timeout
    (up : Upstream) (tidS msg : String) (sts : Nat → String)
    (htid : tidS ≠ "") (hmsg : msg ≠ "")
    (hm : up.messageResp.ok = true) (hr : up.runResp.ok = true)
    (rid : JsVal) (hrid : jsGet up.runResp.data "id" = .ok rid)
    (hok : ∀ k, k < 40 → (up.getRunResp k).ok = true)
    (hst : ∀ k, k < 40 → jsGet (up.getRunResp k).data "status" = .ok (.str (sts k)))
    (hnt : ∀ k, k < 40 → isTerminal (sts k) = false) :
    waitForRunComplete up (.str tidS) rid [] =
      (List.replicate 40 (UpCall.getRun (.str tidS) rid),
       .error ⟨"Timed out waiting for assistant response", none, none⟩) ∧
    (chatSend up (.obj [("threadId", .str tidS), ("message", .str msg)])).2 =
      [UpCall.addMessage (.str tidS) msg, UpCall.createRun (.str tidS)] ++
        List.replicate 40 (UpCall.getRun (.str tidS) rid) ∧
    ∀ (l : JsVal) (n : Nat),
      UpCall.listMessages l n ∉
        (chatSend up (.obj [("threadId", .str tidS), ("message", .str msg)])).2 := by
  have hwait : ∀ t, waitForRunComplete up (.str tidS) rid t =
      (t ++ List.replicate 40 (UpCall.getRun (.str tidS) rid),
       .error ⟨"Timed out waiting for assistant response", none, none⟩) := by
    intro t
    have h := waitLoop_timeout up (.str tidS) rid sts 40 0 t
      (fun k hk => by simpa using hok k (by omega))
      (fun k hk => by simpa using hst k (by omega))
      (fun k hk => by simpa using hnt k (by omega))
    rw [waitForRunComplete]
    exact h
  have h2 : (chatSend up (.obj [("threadId", .str tidS), ("message", .str msg)])).2 =
      [UpCall.addMessage (.str tidS) msg, UpCall.createRun (.str tidS)] ++
        List.replicate 40 (UpCall.getRun (.str tidS) rid) := by
    rw [chatSend_valid_eq up (.obj [("threadId", .str tidS), ("message", .str msg)])
        (.str tidS) msg rfl rfl rfl hmsg, sendResponseOf_snd,
      chatSendTry_given_tid up tidS msg htid hm hr rid hrid, hwait]
    rfl
  refine ⟨by simpa using hwait [], h2, ?_⟩
  intro l n hmem
  rw [h2] at hmem
  simp [List.mem_append, List.mem_replicate] at hmem

/-- C5 witness: a perpetually `in_progress` run: 40 status fetches, the
timeout failure, and no message listing in the trace. -/
theorem chatSend_poll_timeout_witness :
    waitForRunComplete upNeverDone (.str "T") (.str "run_abc") [] =
      (List.replicate 40 (UpCall.getRun (.str "T") (.str "run_abc")),
       .error ⟨"Timed out waiting for assistant response", none, none⟩) ∧
    (chatSend upNeverDone (.obj [("threadId", .str "T"), ("message", .str "hi")])).2 =
      [UpCall.addMessage (.str "T") "hi", UpCall.createRun (.str "T")] ++
        List.replicate 40 (UpCall.getRun (.str "T") (.str "run_abc")) ∧
    ∀ (l : JsVal) (n : Nat),
      UpCall.listMessages l n ∉
        (chatSend upNeverDone (.obj [("threadId", .str "T"), ("message", .str "hi")])).2 :=
  chatSend_poll_timeout upNeverDone "T" "hi" (fun _ => "in_progress")
    (by decide) (by decide) rfl rfl (.str "run_abc") rfl
    (fun _ _ => rfl) (fun _ _ => rfl) (fun _ _ => rfl)

/-- C6: reply extraction selects the first entry of the message list, in the
given order, whose role is `assistant`, and within it the first content block
whose type is `text` and whose nested value is truthy (for strings:
non-empty), returning that value; with no assistant entry, or with an
assistant entry none of whose blocks match, it produces null, which
`/chat/send` surfaces as `reply = ""`. -/
theorem extractLatestAssistantText_selection :
    (∀ (msgs m tb v : JsVal) (l₁ l₂ b₁ b₂ : List JsVal),
      msgs.getOpt "data" = .arr (l₁ ++ m :: l₂) →
      (∀ y ∈ l₁, ∃ r, jsGet y "role" = .ok r ∧ r.isStr "assistant" = false) →
      jsGet m "role" = .ok (.str "assistant") →
      m.getOpt "content" = .arr (b₁ ++ tb :: b₂) →
      (∀ b ∈ b₁, ∃ ty, jsGet b "type" = .ok ty ∧
        (ty.isStr "text" = false ∨ ((b.getOpt "text").getOpt "value").truthy = false)) →
      jsGet tb "type" = .ok (.str "text") →
      (tb.getOpt "text").getOpt "value" = v →
      v.truthy = true →
      extractLatestAssistantText msgs = .ok v) ∧
    (∀ (msgs : JsVal) (l : List JsVal),
      msgs.getOpt "data" = .arr l →
      (∀ y ∈ l, ∃ r, jsGet y "role" = .ok r ∧ r.isStr "assistant" = false) →
      extractLatestAssistantText msgs = .ok .null) ∧
    (∀ (msgs m : JsVal) (l₁ l₂ : List JsVal),
      msgs.getOpt "data" = .arr (l₁ ++ m :: l₂) →
      (∀ y ∈ l₁, ∃ r, jsGet y "role" = .ok r ∧ r.isStr "assistant" = false) →
      jsGet m "role" = .ok (.str "assistant") →
      (∀ b ∈ arrEntries (m.getOpt "content"), ∃ ty, jsGet b "type" = .ok ty ∧
        (ty.isStr "text" = false ∨ ((b.getOpt "text").getOpt "value").truthy = false)) →
      extractLatestAssistantText msgs = .ok .null) ∧
    (∀ (up : Upstream) (tidS msg : String) (rid : JsVal),
      tidS ≠ "" → msg ≠ "" →
      up.messageResp.ok = true → up.runResp.ok = true →
      jsGet up.runResp.data "id" = .ok rid →
      (up.getRunResp 0).ok = true →
      jsGet (up.getRunResp 0).data "status" = .ok (.str "completed") →
      up.listResp.ok = true →
      extractLatestAssistantText up.listResp.data = .ok .null →
      chatSend up (.obj [("threadId", .str tidS), ("message", .str msg)]) =
        (⟨200, .obj [("threadId", .str tidS), ("reply", .str "")]⟩,
         [UpCall.addMessage (.str tidS) msg, UpCall.createRun (.str tidS),
          UpCall.getRun (.str tidS) rid, UpCall.listMessages (.str tidS) 20])) := by
  refine ⟨?_, ?_, ?_, ?_⟩
  · intro msgs m tb v l₁ l₂ b₁ b₂ hdata h₁ hm hcontent hb₁ htb hv hvt
    have hfind1 : jsFind roleIsAssistant (l₁ ++ m :: l₂) = .ok (some m) := by
      refine jsFind_append_found (fun y hy => ?_) ?_
      · obtain ⟨r, hr, hrf⟩ := h₁ y hy
        simp [roleIsAssistant, hr, hrf]
      · simp [roleIsAssistant, hm]
    have hfind2 : jsFind isTruthyTextBlock (b₁ ++ tb :: b₂) = .ok (some tb) := by
      refine jsFind_append_found (fun b hb => ?_) ?_
      · obtain ⟨ty, hty, hdisj⟩ := hb₁ b hb
        rcases hdisj with hd | hd <;> simp [isTruthyTextBlock, hty, hd, ite_self]
      · simp [isTruthyTextBlock, htb, hv, hvt]
    simp [extractLatestAssistantText, hdata, hfind1, hcontent, hfind2, hv,
      JsVal.isNullish_eq_false_of_truthy hvt]
  · intro msgs l hdata h
    have hfind1 : jsFind roleIsAssistant l = .ok none := by
      refine jsFind_eq_none (fun y hy => ?_)
      obtain ⟨r, hr, hrf⟩ := h y hy
      simp [roleIsAssistant, hr, hrf]
    simp [extractLatestAssistantText, hdata, hfind1]
  · intro msgs m l₁ l₂ hdata h₁ hm hblocks
    have hfind1 : jsFind roleIsAssistant (l₁ ++ m :: l₂) = .ok (some m) := by
      refine jsFind_append_found (fun y hy => ?_) ?_
      · obtain ⟨r, hr, hrf⟩ := h₁ y hy
        simp [roleIsAssistant, hr, hrf]
      · simp [roleIsAssistant, hm]
    have hfind2 : jsFind isTruthyTextBlock (arrEntries (m.getOpt "content")) = .ok none := by
      refine jsFind_eq_none (fun b hb => ?_)
      obtain ⟨ty, hty, hdisj⟩ := hblocks b hb
      rcases hdisj with hd | hd <;> simp [isTruthyTextBlock, hty, hd, ite_self]
    simp [extractLatestAssistantText, hdata, hfind1, hfind2]
  · intro up tidS msg rid htid hmsg hm hr hrid hc0 hc0st hl hx
    have hwert : waitForRunComplete up (.str tidS) rid
        [UpCall.addMessage (.str tidS) msg, UpCall.createRun (.str tidS)] =
        ([UpCall.addMessage (.str tidS) msg, UpCall.createRun (.str tidS)] ++
          [UpCall.getRun (.str tidS) rid], .ok (up.getRunResp 0).data) := by
      have h := waitLoop_completed up (.str tidS) rid (fun _ => "completed") 0 40 0
        [UpCall.addMessage (.str tidS) msg, UpCall.createRun (.str tidS)]
        (by omega)
        (fun k hk => by
          have hk0 : k = 0 := by omega
          subst hk0
          simpa using hc0)
        (fun k hk => by
          have hk0 : k = 0 := by omega
          subst hk0
          simpa using hc0st)
        (fun k hk => absurd hk (by omega))
        rfl
      rw [waitForRunComplete]
      simpa [List.replicate] using h
    rw [chatSend_valid_eq up (.obj [("threadId", .str tidS), ("message", .str msg)])
        (.str tidS) msg rfl rfl rfl hmsg,
      chatSendTry_given_tid up tidS msg htid hm hr rid hrid, hwert]
    simp [afterPoll, sendFinish, sendResponseOf, openAI_ok hl, hx, JsVal.truthy]

/-- C6 witness: an assistant message with content
`[{type:"text", text:{value:"hello"}}]` extracts to `"hello"`; an empty
message list extracts to null; and through `/chat/send` with an upstream
whose listing has no assistant entry the response's `reply` is `""`. -/
theorem extractLatestAssistantText_selection_witness :
    extractLatestAssistantText (.obj [("data", .arr [helloMessage])]) = .ok (.str "hello") ∧
    extractLatestAssistantText (.obj [("data", .arr [])]) = .ok .null ∧
    chatSend upNoReply (.obj [("threadId", .str "T"), ("message", .str "hi")]) =
      (⟨200, .obj [("threadId", .str "T"), ("reply", .str "")]⟩,
       [UpCall.addMessage (.str "T") "hi", UpCall.createRun (.str "T"),
        UpCall.getRun (.str "T") (.str "run_abc"), UpCall.listMessages (.str "T") 20]) :=
  ⟨extractLatestAssistantText_selection.1 (.obj [("data", .arr [helloMessage])])
      helloMessage
      (JsVal.obj [("type", .str "text"), ("text", .obj [("value", .str "hello")])])
      (.str "hello") [] [] [] [] rfl
      (by intro y hy; exact absurd hy (List.not_mem_nil y))
      rfl rfl
      (by intro b hb; exact absurd hb (List.not_mem_nil b))
      rfl rfl rfl,
   extractLatestAssistantText_selection.2.1 (.obj [("data", .arr [])]) [] rfl
      (by intro y hy; exact absurd hy (List.not_mem_nil y)),
   extractLatestAssistantText_selection.2.2.2 upNoReply "T" "hi" (.str "run_abc")
      (by decide) (by decide) rfl rfl rfl rfl rfl rfl rfl⟩
